import Mathlib

set_option maxRecDepth 10000

/-!
Verification of the provenance hashing and content-addressing pipeline of the
offchain service (src/offchain).  The definitions below are a shallow
embedding of src/offchain/src/models.rs, handlers.rs and error.rs.  Machine
integers are modelled as Nat reduced modulo 2^32 / 2^64 where the source
wraps; byte strings are List Nat (each element < 256); fallible operations
return Except; the storage collaborator (upload / pin), which the spec
treats as an external interface, is passed in as an explicit outcome.
-/

-- ======================== byte and hex utilities ========================

/-- UTF-8 encoding of one character, as the list of its bytes. -/
def utf8Char (c : Char) : List Nat :=
  let n := c.toNat
  if n < 128 then [n]
  else if n < 2048 then [192 + n / 64, 128 + n % 64]
  else if n < 65536 then [224 + n / 4096, 128 + (n / 64) % 64, 128 + n % 64]
  else [240 + n / 262144, 128 + (n / 4096) % 64, 128 + (n / 64) % 64, 128 + n % 64]

/-- Byte list of the UTF-8 encoding of a string (Rust `str::as_bytes`). -/
def utf8Bytes (s : String) : List Nat :=
  s.data.foldr (fun c acc => utf8Char c ++ acc) []

/-- Lower-case hexadecimal digit for a value below 16. -/
def hexChar (n : Nat) : Char :=
  if n < 10 then Char.ofNat (48 + n) else Char.ofNat (87 + n)

/-- Two-character lower-case hex rendering of one byte. -/
def byteToHexStr (b : Nat) : String :=
  String.mk [hexChar (b / 16), hexChar (b % 16)]

/-- Lower-case hex rendering of a byte list (Rust `hex::encode`). -/
def hexEncode (bs : List Nat) : String :=
  String.join (bs.map byteToHexStr)

-- ======================== SHA-256 ========================

def M32 : Nat := 4294967296

def mask32 : Nat := M32 - 1

/-- Rotation of a 32-bit word to the right by n positions. -/
def rotr32 (n x : Nat) : Nat :=
  ((x >>> n) ||| (x <<< (32 - n))) % M32

/-- Round constant table of SHA-256 (FIPS 180-4), as decimal values. -/
def sha256K : List Nat :=
  [1116352408, 1899447441, 3049323471, 3921009573,
   961987163, 1508970993, 2453635748, 2870763221,
   3624381080, 310598401, 607225278, 1426881987,
   1925078388, 2162078206, 2614888103, 3248222580,
   3835390401, 4022224774, 264347078, 604807628,
   770255983, 1249150122, 1555081692, 1996064986,
   2554220882, 2821834349, 2952996808, 3210313671,
   3336571891, 3584528711, 113926993, 338241895,
   666307205, 773529912, 1294757372, 1396182291,
   1695183700, 1986661051, 2177026350, 2456956037,
   2730485921, 2820302411, 3259730800, 3345764771,
   3516065817, 3600352804, 4094571909, 275423344,
   430227734, 506948616, 659060556, 883997877,
   958139571, 1322822218, 1537002063, 1747873779,
   1955562222, 2024104815, 2227730452, 2361852424,
   2428436474, 2756734187, 3204031479, 3329325298]

/-- Initial hash state of SHA-256 (FIPS 180-4), as decimal values. -/
def sha256H0 : List Nat :=
  [1779033703, 3144134277, 1013904242, 2773480762,
   1359893119, 2600822924, 528734635, 1541459225]

/-- Fuel-driven chunking of a list into pieces of length n (last may be shorter). -/
def chunkListAux (n : Nat) : Nat → List Nat → List (List Nat)
  | 0, _ => []
  | _ + 1, [] => []
  | fuel + 1, x :: xs => (x :: xs).take n :: chunkListAux n fuel ((x :: xs).drop n)

/-- Chunk a byte list into pieces of length n. -/
def chunkList (n : Nat) (l : List Nat) : List (List Nat) :=
  chunkListAux n l.length l

/-- Big-endian 8-byte rendering of a natural number. -/
def be64 (n : Nat) : List Nat :=
  (List.range 8).map (fun i => (n >>> (8 * (7 - i))) % 256)

/-- SHA-256 message padding: append 0x80, zeros, and the 64-bit bit length. -/
def sha256Pad (msg : List Nat) : List Nat :=
  msg ++ [128] ++ List.replicate ((119 - msg.length % 64) % 64) 0 ++ be64 (msg.length * 8)

/-- Big-endian 32-bit words of one 64-byte block. -/
def beWords (block : List Nat) : List Nat :=
  (chunkList 4 block).map (fun ws => ws.foldl (fun a b => a * 256 + b) 0)

/-- One step of the SHA-256 message schedule extension. -/
def sha256ExtendWord (w : List Nat) : Nat :=
  let i := w.length
  let x := w.getD (i - 15) 0
  let y := w.getD (i - 2) 0
  let s0 := rotr32 7 x ^^^ rotr32 18 x ^^^ (x >>> 3)
  let s1 := rotr32 17 y ^^^ rotr32 19 y ^^^ (y >>> 10)
  (w.getD (i - 16) 0 + s0 + w.getD (i - 7) 0 + s1) % M32

/-- Extend the 16 block words to the 64 schedule words. -/
def sha256ScheduleAux : Nat → List Nat → List Nat
  | 0, w => w
  | n + 1, w => sha256ScheduleAux n (w ++ [sha256ExtendWord w])

/-- One SHA-256 compression round; the state is the 8-word list a..h. -/
def sha256Round (st : List Nat) (kw : Nat × Nat) : List Nat :=
  let a := st.getD 0 0
  let b := st.getD 1 0
  let c := st.getD 2 0
  let d := st.getD 3 0
  let e := st.getD 4 0
  let f := st.getD 5 0
  let g := st.getD 6 0
  let h := st.getD 7 0
  let s1 := rotr32 6 e ^^^ rotr32 11 e ^^^ rotr32 25 e
  let ch := (e &&& f) ^^^ ((mask32 ^^^ e) &&& g)
  let t1 := (h + s1 + ch + kw.1 + kw.2) % M32
  let s0 := rotr32 2 a ^^^ rotr32 13 a ^^^ rotr32 22 a
  let mj := (a &&& b) ^^^ (a &&& c) ^^^ (b &&& c)
  let t2 := (s0 + mj) % M32
  [(t1 + t2) % M32, a, b, c, (d + t1) % M32, e, f, g]

/-- Compress one 64-byte block into the running hash state. -/
def sha256Block (h : List Nat) (block : List Nat) : List Nat :=
  let w := sha256ScheduleAux 48 (beWords block)
  let final := (sha256K.zip w).foldl sha256Round h
  (h.zip final).map (fun p => (p.1 + p.2) % M32)

/-- Big-endian 4-byte rendering of a 32-bit word. -/
def beBytes4 (n : Nat) : List Nat :=
  [(n >>> 24) % 256, (n >>> 16) % 256, (n >>> 8) % 256, n % 256]

/-- SHA-256 digest bytes of a byte list. -/
def sha256Bytes (msg : List Nat) : List Nat :=
  let final := (chunkList 64 (sha256Pad msg)).foldl sha256Block sha256H0
  final.foldr (fun wrd acc => beBytes4 wrd ++ acc) []

/-- Embedding of `compute_sha256` (models.rs:426-431): the general-purpose
digest, rendered as a 0x-prefixed lower-case hex string. -/
def compute_sha256 (data : List Nat) : String :=
  "0x" ++ hexEncode (sha256Bytes data)

-- ======================== Keccak-256 ========================

def M64 : Nat := 18446744073709551616

def mask64 : Nat := M64 - 1

/-- Left rotation of a 64-bit lane. -/
def rol64 (n x : Nat) : Nat :=
  ((x <<< n) ||| (x >>> (64 - n))) % M64

/-- Round constant table of the Keccak permutation, as decimal values. -/
def keccakRC : List Nat :=
  [1, 32898, 9223372036854808714,
   9223372039002292224, 32907, 2147483649,
   9223372039002292353, 9223372036854808585, 138,
   136, 2147516425, 2147483658,
   2147516555, 9223372036854775947, 9223372036854808713,
   9223372036854808579, 9223372036854808578, 9223372036854775936,
   32778, 9223372039002259466, 9223372039002292353,
   9223372036854808704, 2147483649, 9223372039002292232]

/-- Keccak rotation offsets, indexed by x + 5 * y. -/
def keccakRots : List Nat :=
  [0, 1, 62, 28, 27] ++ [36, 44, 6, 55, 20] ++ [3, 10, 43, 25, 39] ++
    [41, 45, 15, 21, 8] ++ [18, 2, 61, 56, 14]

/-- Lane (x, y) of a 25-lane state. -/
def lane (st : List Nat) (x y : Nat) : Nat :=
  st.getD (x + 5 * y) 0

/-- Keccak theta step. -/
def keccakTheta (st : List Nat) : List Nat :=
  let c := fun x => lane st x 0 ^^^ lane st x 1 ^^^ lane st x 2 ^^^ lane st x 3 ^^^ lane st x 4
  let d := fun x => c ((x + 4) % 5) ^^^ rol64 1 (c ((x + 1) % 5))
  (List.range 25).map (fun j => st.getD j 0 ^^^ d (j % 5))

/-- Keccak rho and pi steps combined. -/
def keccakRhoPi (st : List Nat) : List Nat :=
  (List.range 25).map (fun j =>
    let xq := j % 5
    let yq := j / 5
    let xs := (xq + 3 * yq) % 5
    let ys := xq
    rol64 (keccakRots.getD (xs + 5 * ys) 0) (lane st xs ys))

/-- Keccak chi step. -/
def keccakChi (st : List Nat) : List Nat :=
  (List.range 25).map (fun j =>
    let x := j % 5
    let y := j / 5
    st.getD j 0 ^^^ ((mask64 ^^^ lane st ((x + 1) % 5) y) &&& lane st ((x + 2) % 5) y))

/-- Keccak iota step: mix the round constant into lane (0, 0). -/
def keccakIotaStep (rc : Nat) (st : List Nat) : List Nat :=
  match st with
  | [] => []
  | a :: rest => (a ^^^ rc) :: rest

/-- The Keccak-f[1600] permutation. -/
def keccakF (st : List Nat) : List Nat :=
  keccakRC.foldl (fun s rc => keccakIotaStep rc (keccakChi (keccakRhoPi (keccakTheta s)))) st

/-- Little-endian lane value of (up to) 8 bytes. -/
def leLane (bs : List Nat) : Nat :=
  bs.foldr (fun b acc => acc * 256 + b) 0

/-- Little-endian 8-byte rendering of a 64-bit lane. -/
def leBytes8 (n : Nat) : List Nat :=
  (List.range 8).map (fun i => (n >>> (8 * i)) % 256)

/-- Absorb one 136-byte block into the sponge state and permute. -/
def keccakAbsorbBlock (st : List Nat) (block : List Nat) : List Nat :=
  let lanes := (chunkList 8 block).map leLane
  keccakF ((List.range 25).map (fun j => st.getD j 0 ^^^ lanes.getD j 0))

/-- Keccak multi-rate padding for rate 136 (original Keccak, as in sha3::Keccak256). -/
def keccakPad (msg : List Nat) : List Nat :=
  let q := 136 - msg.length % 136
  if q = 1 then msg ++ [129]
  else msg ++ [1] ++ List.replicate (q - 2) 0 ++ [128]

/-- Keccak-256 digest bytes of a byte list. -/
def keccak256Bytes (msg : List Nat) : List Nat :=
  let st := (chunkList 136 (keccakPad msg)).foldl keccakAbsorbBlock (List.replicate 25 0)
  (List.range 4).foldr (fun i acc => leBytes8 (st.getD i 0) ++ acc) []

/-- Embedding of `compute_keccak256` (models.rs:417-423): the Solidity-compatible
digest, rendered as a 0x-prefixed lower-case hex string. -/
def compute_keccak256 (data : List Nat) : String :=
  "0x" ++ hexEncode (keccak256Bytes data)

-- ======================== merkle root ========================

/-- One level of the merkle reduction (the `for chunk in current_level.chunks(2)`
body, models.rs:453-461): adjacent digest strings are concatenated pairwise,
left to right, an odd trailing element is concatenated with itself, and each
concatenation is hashed with `compute_sha256` of its UTF-8 bytes. -/
def mrStep : List String → List String
  | [] => []
  | [a] => [compute_sha256 (utf8Bytes (a ++ a))]
  | a :: b :: rest => compute_sha256 (utf8Bytes (a ++ b)) :: mrStep rest

/-- The `while current_level.len() > 1` loop of `compute_merkle_root`
(models.rs:450-464), indexed by a fuel bound so the recursion is structural.
One level step at least halves the length, so a fuel of the initial length is
always sufficient; fuel-independence is proved below (mrLoop_unfold). -/
def mrLoopAux : Nat → List String → List String
  | 0, l => l
  | fuel + 1, l => if 1 < l.length then mrLoopAux fuel (mrStep l) else l

/-- The level-reduction loop of `compute_merkle_root`: reduce level by level
until at most one digest remains. -/
def mrLoop (l : List String) : List String :=
  mrLoopAux l.length l

/-- Embedding of `compute_merkle_root` (models.rs:439-467).  The final
`current_level[0]` indexing of the source is modelled by `head?`: a `none`
result would correspond to an out-of-bounds panic. -/
def compute_merkle_root (hashes : List String) : Option String :=
  if hashes.isEmpty then some (compute_sha256 (utf8Bytes ("empty")))
  else if hashes.length == 1 then hashes.head?
  else (mrLoop hashes).head?

-- ======================== data model (models.rs) ========================

/-- Coordinates record (models.rs:34-39).  The f64 fields are modelled by the
decimal text of their rendering, since only that text ever enters a digest. -/
structure GpsCoordinates where
  latitude : String
  longitude : String
  altitude : Option String
deriving DecidableEq

/-- Farmer registration payload (models.rs:8-32); f64 fields as decimal text. -/
structure FarmerRegistrationRequest where
  farmer_name : String
  crop_type : String
  land_area_hectares : String
  location : String
  gps_coordinates : Option GpsCoordinates
  kyc_document_url : Option String
  land_ownership_docs : List String
  satellite_imagery_url : Option String
  soil_test_report : Option String
  phone_number : Option String
  email : Option String
deriving DecidableEq

/-- Envelope stored for a registration (models.rs:41-48); timestamps as text. -/
structure FarmerRegistrationMetadata where
  farmer_did : String
  registration_data : FarmerRegistrationRequest
  registered_at : String
  ipfs_cid : String
  crop_id_hash : String
deriving DecidableEq

/-- Receipt for a registration (models.rs:50-56). -/
structure FarmerRegistrationResponse where
  farmer_did : String
  crop_id_hash : String
  ipfs_cid : String
  registered_at : String
deriving DecidableEq

/-- FPO purchase payload (models.rs:60-83). -/
structure FpoPurchaseRequest where
  farmer_did : String
  fpo_name : String
  batch_id : String
  quantity_kg : String
  price_per_kg : String
  quality_grade : String
  quality_report_url : Option String
  weight_slip_url : Option String
  photos : List String
  moisture_content : Option String
  impurity_percentage : Option String
  payment_reference : Option String
deriving DecidableEq

/-- Envelope stored for a purchase (models.rs:85-91). -/
structure FpoPurchaseMetadata where
  batch_hash : String
  purchase_data : FpoPurchaseRequest
  purchased_at : String
  ipfs_cid : String
deriving DecidableEq

/-- Receipt for a purchase (models.rs:93-98). -/
structure FpoPurchaseResponse where
  batch_hash : String
  ipfs_cid : String
  purchased_at : String
deriving DecidableEq

/-- Pest inspection record (models.rs:126-132). -/
structure PestInspection where
  inspected_at : String
  pest_found : Bool
  pest_type : Option String
  treatment_applied : Option String
deriving DecidableEq

/-- Warehouse update payload (models.rs:102-124); Option f64 sensor values are
modelled by the text of their float rendering. -/
structure WarehouseUpdateRequest where
  warehouse_id : String
  batch_id : String
  storage_location : String
  temperature_celsius : Option String
  humidity_percentage : Option String
  co2_level_ppm : Option String
  iot_logs_url : Option String
  inspection_reports : List String
  pest_inspection : Option PestInspection
  quality_degradation : Option String
deriving DecidableEq

/-- Envelope stored for a warehouse update (models.rs:134-141). -/
structure WarehouseStateMetadata where
  warehouse_id : String
  state_hash : String
  warehouse_data : WarehouseUpdateRequest
  updated_at : String
  ipfs_cid : String
deriving DecidableEq

/-- Receipt for a warehouse update (models.rs:143-149). -/
structure WarehouseUpdateResponse where
  warehouse_id : String
  state_hash : String
  ipfs_cid : String
  updated_at : String
deriving DecidableEq

/-- Milestone kind (models.rs:178-187). -/
inductive MilestoneType where
  | pickedUp
  | inTransit
  | atCheckpoint
  | delivered
  | delayed
  | incident
deriving DecidableEq

/-- Shock event record (models.rs:189-194). -/
structure ShockEvent where
  timestamp : String
  g_force : String
  location : Option GpsCoordinates
deriving DecidableEq

/-- Logistics milestone payload (models.rs:153-176). -/
structure LogisticsMilestoneRequest where
  shipment_id : String
  current_location : String
  gps_coordinates : GpsCoordinates
  milestone_type : MilestoneType
  gps_history_url : Option String
  carrier_name : String
  vehicle_id : String
  driver_name : Option String
  temperature_log : Option String
  shock_events : List ShockEvent
  estimated_arrival : Option String
  is_delivered : Bool
deriving DecidableEq

/-- Envelope stored for a logistics milestone (models.rs:196-203). -/
structure LogisticsMilestoneMetadata where
  shipment_id : String
  location_hash : String
  milestone_data : LogisticsMilestoneRequest
  recorded_at : String
  ipfs_cid : String
deriving DecidableEq

/-- Receipt for a logistics milestone (models.rs:205-211). -/
structure LogisticsMilestoneResponse where
  shipment_id : String
  location_hash : String
  ipfs_cid : String
  recorded_at : String
deriving DecidableEq

/-- Processing kind (models.rs:243-252). -/
inductive ProcessingType where
  | cleaning
  | drying
  | milling
  | extraction
  | refining
  | blending
deriving DecidableEq

/-- Rust Debug rendering of ProcessingType, as used by the transform hash. -/
def processingTypeDebug : ProcessingType → String
  | .cleaning => "Cleaning"
  | .drying => "Drying"
  | .milling => "Milling"
  | .extraction => "Extraction"
  | .refining => "Refining"
  | .blending => "Blending"

/-- Process parameters (models.rs:254-260); u32 minutes as Nat. -/
structure ProcessingParameters where
  temperature_celsius : Option String
  pressure_bar : Option String
  duration_minutes : Option Nat
  method : String
deriving DecidableEq

/-- Process batch payload (models.rs:215-241). -/
structure ProcessBatchRequest where
  input_batch_id : String
  processor_name : String
  processing_type : ProcessingType
  input_quantity_kg : String
  output_quantity_kg : String
  yield_percentage : String
  waste_percentage : String
  lab_results_url : List String
  certifications : List String
  output_batch_ids : List String
  processing_parameters : Option ProcessingParameters
deriving DecidableEq

/-- Envelope stored for a process batch (models.rs:262-270). -/
structure ProcessBatchMetadata where
  input_batch_hash : String
  transform_hash : String
  output_batch_hashes : List String
  process_data : ProcessBatchRequest
  processed_at : String
  ipfs_cid : String
deriving DecidableEq

/-- Receipt for a process batch (models.rs:272-279). -/
structure ProcessBatchResponse where
  input_batch_hash : String
  transform_hash : String
  output_batch_hashes : List String
  ipfs_cid : String
  processed_at : String
deriving DecidableEq

/-- SKU creation payload (models.rs:283-314). -/
structure CreateSkuRequest where
  sku_id : String
  parent_batch_id : String
  product_name : String
  brand : String
  unit_weight_grams : String
  units_packaged : Nat
  package_type : String
  barcode : Option String
  qr_code : Option String
  nutritional_info_url : Option String
  regulatory_certifications : List String
  label_images : List String
  expiry_date : Option String
  best_before_date : Option String
  merkle_proof : Option (List String)
deriving DecidableEq

/-- Envelope stored for a SKU creation (models.rs:316-324). -/
structure CreateSkuMetadata where
  sku_id : String
  parent_batch_hash : String
  merkle_root : String
  sku_data : CreateSkuRequest
  packaged_at : String
  ipfs_cid : String
deriving DecidableEq

/-- Receipt for a SKU creation (models.rs:326-333). -/
structure CreateSkuResponse where
  sku_id : String
  parent_batch_hash : String
  merkle_root : String
  ipfs_cid : String
  packaged_at : String
deriving DecidableEq

/-- AI score payload (models.rs:337-360).  The f64 score fields and the
serde_json::Value fields are modelled by the text of their canonical JSON
rendering, since only that text enters the digests. -/
structure AiScoreRequest where
  batch_id : String
  quality_score : String
  sustainability_score : String
  traceability_score : String
  model_name : String
  model_version : String
  features : String
  predictions : String
  confidence : String
  model_artifacts_url : Option String
  training_data_hash : Option String
deriving DecidableEq

/-- Envelope stored for an AI score (models.rs:362-371). -/
structure AiScoreMetadata where
  batch_hash : String
  commit_hash : String
  reveal_hash : String
  nonce : String
  score_data : AiScoreRequest
  scored_at : String
  ipfs_cid : String
deriving DecidableEq

/-- Receipt for an AI score (models.rs:373-380). -/
structure AiScoreResponse where
  batch_hash : String
  commit_hash : String
  reveal_hash : String
  ipfs_cid : String
  scored_at : String
deriving DecidableEq

/-- Serialized field names of AiScoreResponse, in declaration order
(models.rs:373-380): the receipt carries no nonce field. -/
def aiScoreResponseFields : List String :=
  ["batch_hash", "commit_hash", "reveal_hash", "ipfs_cid", "scored_at"]

/-- Serialized field names of AiScoreMetadata, in declaration order
(models.rs:362-371): the stored envelope carries the nonce. -/
def aiScoreMetadataFields : List String :=
  ["batch_hash", "commit_hash", "reveal_hash", "nonce", "score_data", "scored_at", "ipfs_cid"]

-- ======================== errors (error.rs) ========================

/-- Embedding of the AppError enum (error.rs:9-43). -/
inductive AppError where
  | ipfsError (msg : String)
  | serializationError (msg : String)
  | validationError (msg : String)
  | notFound (msg : String)
  | internalError (msg : String)
  | hashError (msg : String)
  | ioError (msg : String)
  | httpError (msg : String)
  | invalidCid (msg : String)
  | unauthorized (msg : String)
  | badRequest (msg : String)
deriving DecidableEq

/-- Variant names of AppError, in declaration order (error.rs:9-43). -/
def appErrorVariants : List String :=
  ["IpfsError", "SerializationError", "ValidationError", "NotFound", "InternalError",
   "HashError", "IoError", "HttpError", "InvalidCid", "Unauthorized", "BadRequest"]

/-- Embedding of the From anyhow::Error conversion (error.rs:77-81): every
anyhow error, such as a storage client failure propagated with the question
mark operator, becomes InternalError carrying the message. -/
def fromAnyhow (e : String) : AppError :=
  AppError.internalError e

-- ======================== pipeline events ========================

/-- Observable steps of one stage invocation, in source order: validation,
digest computations (tagged with the name of the digest), the storage persist
call and the pin call (tagged with their outcome). -/
inductive Event where
  | validatePass
  | validateFail
  | computeHash (tag : String)
  | persistCall (ok : Bool)
  | pinCall (ok : Bool)
deriving DecidableEq, BEq

def isPersistEvent : Event → Bool
  | .persistCall _ => true
  | _ => false

/-- Events before the first persist call. -/
def beforePersist (tr : List Event) : List Event :=
  tr.takeWhile (fun e => !isPersistEvent e)

/-- Events after the first persist call. -/
def afterPersist (tr : List Event) : List Event :=
  match tr.dropWhile (fun e => !isPersistEvent e) with
  | [] => []
  | _ :: rest => rest

/-- Whether the named digest is computed strictly before the persist call. -/
def hashPrecedesPersist (tag : String) (tr : List Event) : Bool :=
  (beforePersist tr).contains (Event.computeHash tag)

/-- Whether the named digest is computed strictly after the persist call. -/
def hashAfterPersist (tag : String) (tr : List Event) : Bool :=
  (afterPersist tr).contains (Event.computeHash tag)

-- ======================== validation (validator derive) ========================

/-- Validation of a registration payload: the fields annotated with
length(min = 1) in models.rs:8-19 must be non-empty. -/
def validateFarmer (p : FarmerRegistrationRequest) : Bool :=
  p.farmer_name != "" && p.crop_type != "" && p.location != ""

/-- Validation of a purchase payload (models.rs:62-66). -/
def validateFpo (p : FpoPurchaseRequest) : Bool :=
  p.farmer_did != "" && p.fpo_name != ""

/-- Validation of a warehouse payload (models.rs:104-108). -/
def validateWarehouse (p : WarehouseUpdateRequest) : Bool :=
  p.warehouse_id != "" && p.batch_id != ""

/-- Validation of a logistics payload (models.rs:155-156). -/
def validateLogistics (p : LogisticsMilestoneRequest) : Bool :=
  p.shipment_id != ""

/-- Validation of a process payload (models.rs:217-221). -/
def validateProcess (p : ProcessBatchRequest) : Bool :=
  p.input_batch_id != "" && p.processor_name != ""

/-- Validation of a SKU payload (models.rs:285-292). -/
def validateSku (p : CreateSkuRequest) : Bool :=
  p.sku_id != "" && p.parent_batch_id != "" && p.product_name != ""

/-- Validation of an AI score payload (models.rs:339-340). -/
def validateAiScore (p : AiScoreRequest) : Bool :=
  p.batch_id != ""

-- ======================== canonical text helpers ========================

/-- Rust Debug rendering of an Option value whose payload renders as the
given text: None, or Some(..) around it. -/
def debugOption : Option String → String
  | none => "None"
  | some v => "Some(" ++ v ++ ")"

/-- JSON escaping of one character, as serde_json renders strings. -/
def jsonEscapeChar (c : Char) : String :=
  let n := c.toNat
  if n = 34 then "\\\""
  else if n = 92 then "\\\\"
  else if n = 8 then "\\b"
  else if n = 9 then "\\t"
  else if n = 10 then "\\n"
  else if n = 12 then "\\f"
  else if n = 13 then "\\r"
  else if n < 32 then "\\u00" ++ String.mk [hexChar (n / 16), hexChar (n % 16)]
  else String.singleton c

def jsonEscape (s : String) : String :=
  String.join (s.data.map jsonEscapeChar)

/-- JSON rendering of a string value. -/
def jsonStr (s : String) : String :=
  "\"" ++ jsonEscape s ++ "\""

/-- JSON rendering of an optional string value. -/
def jsonOptStr : Option String → String
  | none => "null"
  | some s => jsonStr s

/-- Canonical serialization of an AI score payload: the serde_json rendering
of AiScoreRequest, fields in declaration order (models.rs:337-360).  Numeric
and Value fields carry their JSON text directly. -/
def canonicalAiScore (p : AiScoreRequest) : String :=
  "\x7b\"batch_id\":" ++ jsonStr p.batch_id ++
  ",\"quality_score\":" ++ p.quality_score ++
  ",\"sustainability_score\":" ++ p.sustainability_score ++
  ",\"traceability_score\":" ++ p.traceability_score ++
  ",\"model_name\":" ++ jsonStr p.model_name ++
  ",\"model_version\":" ++ jsonStr p.model_version ++
  ",\"features\":" ++ p.features ++
  ",\"predictions\":" ++ p.predictions ++
  ",\"confidence\":" ++ p.confidence ++
  ",\"model_artifacts_url\":" ++ jsonOptStr p.model_artifacts_url ++
  ",\"training_data_hash\":" ++ jsonOptStr p.training_data_hash ++ "\x7d"

-- ======================== stored envelopes ========================

/-- The envelope value handed to the storage persist call by register_farmer
(handlers.rs:30-36): ipfs_cid and crop_id_hash are the empty string at that
point and the record is never written to again. -/
def mkFarmerMetadata (p : FarmerRegistrationRequest) (now did : String) :
    FarmerRegistrationMetadata :=
  { farmer_did := did, registration_data := p, registered_at := now,
    ipfs_cid := "", crop_id_hash := "" }

/-- The envelope persisted by fpo_purchase (handlers.rs:83-88). -/
def mkFpoMetadata (batch_hash : String) (p : FpoPurchaseRequest) (now : String) :
    FpoPurchaseMetadata :=
  { batch_hash := batch_hash, purchase_data := p, purchased_at := now, ipfs_cid := "" }

/-- The envelope persisted by warehouse_update (handlers.rs:123-129):
state_hash and ipfs_cid are the empty string at that point and the record is
never written to again. -/
def mkWarehouseMetadata (p : WarehouseUpdateRequest) (now : String) :
    WarehouseStateMetadata :=
  { warehouse_id := p.warehouse_id, state_hash := "", warehouse_data := p,
    updated_at := now, ipfs_cid := "" }

/-- The envelope persisted by logistics_milestone (handlers.rs:186-192). -/
def mkLogisticsMetadata (location_hash : String) (p : LogisticsMilestoneRequest)
    (now : String) : LogisticsMilestoneMetadata :=
  { shipment_id := p.shipment_id, location_hash := location_hash,
    milestone_data := p, recorded_at := now, ipfs_cid := "" }

/-- The envelope persisted by process_batch (handlers.rs:252-259). -/
def mkProcessMetadata (ih th : String) (ohs : List String) (p : ProcessBatchRequest)
    (now : String) : ProcessBatchMetadata :=
  { input_batch_hash := ih, transform_hash := th, output_batch_hashes := ohs,
    process_data := p, processed_at := now, ipfs_cid := "" }

/-- The envelope persisted by create_sku (handlers.rs:308-315). -/
def mkSkuMetadata (pbh mroot : String) (p : CreateSkuRequest) (now : String) :
    CreateSkuMetadata :=
  { sku_id := p.sku_id, parent_batch_hash := pbh, merkle_root := mroot,
    sku_data := p, packaged_at := now, ipfs_cid := "" }

/-- The envelope persisted by ai_score (handlers.rs:365-373). -/
def mkAiScoreMetadata (bh ch rh nonce : String) (p : AiScoreRequest) (now : String) :
    AiScoreMetadata :=
  { batch_hash := bh, commit_hash := ch, reveal_hash := rh, nonce := nonce,
    score_data := p, scored_at := now, ipfs_cid := "" }

-- ======================== stage handlers (handlers.rs) ========================

/-- Embedding of register_farmer (handlers.rs:15-60).  Effectful inputs are
explicit: now is the Utc::now timestamp, did the generated DID, upload the
outcome of the storage persist call and pinResult the outcome of the pin
call.  Returns the event trace in source order and the handler result. -/
def register_farmer (p : FarmerRegistrationRequest) (now did : String)
    (upload : Except String String) (pinResult : Except String Unit) :
    List Event × Except AppError FarmerRegistrationResponse :=
  if validateFarmer p then
    let metadata := mkFarmerMetadata p now did
    match upload with
    | .error e => ([.validatePass, .persistCall false], .error (fromAnyhow e))
    | .ok cid =>
      let crop_id_data := did ++ "-" ++ p.crop_type ++ "-" ++ metadata.registered_at
      let crop_id_hash := compute_keccak256 (utf8Bytes crop_id_data)
      match pinResult with
      | .error e =>
        ([.validatePass, .persistCall true, .computeHash ("crop_id_hash"), .pinCall false],
         .error (fromAnyhow e))
      | .ok _ =>
        ([.validatePass, .persistCall true, .computeHash ("crop_id_hash"), .pinCall true],
         .ok { farmer_did := did, crop_id_hash := crop_id_hash, ipfs_cid := cid,
               registered_at := metadata.registered_at })
  else ([.validateFail], .error (.validationError ("invalid input")))

/-- Embedding of fpo_purchase (handlers.rs:64-107); the batch hash is computed
from payload fields before the persist call. -/
def fpo_purchase (p : FpoPurchaseRequest) (now : String)
    (upload : Except String String) (pinResult : Except String Unit) :
    List Event × Except AppError FpoPurchaseResponse :=
  if validateFpo p then
    let batch_data := p.farmer_did ++ "-" ++ p.batch_id ++ "-" ++ p.quantity_kg ++ "-" ++ p.fpo_name
    let batch_hash := compute_keccak256 (utf8Bytes batch_data)
    let metadata := mkFpoMetadata batch_hash p now
    match upload with
    | .error e =>
      ([.validatePass, .computeHash ("batch_hash"), .persistCall false], .error (fromAnyhow e))
    | .ok cid =>
      match pinResult with
      | .error e =>
        ([.validatePass, .computeHash ("batch_hash"), .persistCall true, .pinCall false],
         .error (fromAnyhow e))
      | .ok _ =>
        ([.validatePass, .computeHash ("batch_hash"), .persistCall true, .pinCall true],
         .ok { batch_hash := batch_hash, ipfs_cid := cid, purchased_at := metadata.purchased_at })
  else ([.validateFail], .error (.validationError ("invalid input")))

/-- Embedding of warehouse_update (handlers.rs:111-157); the state hash is
computed after the persist call, from warehouse fields and the obtained
content address. -/
def warehouse_update (p : WarehouseUpdateRequest) (now : String)
    (upload : Except String String) (pinResult : Except String Unit) :
    List Event × Except AppError WarehouseUpdateResponse :=
  if validateWarehouse p then
    let metadata := mkWarehouseMetadata p now
    match upload with
    | .error e => ([.validatePass, .persistCall false], .error (fromAnyhow e))
    | .ok cid =>
      let state_data := p.warehouse_id ++ "-" ++ p.batch_id ++ "-" ++
        debugOption p.temperature_celsius ++ "-" ++ debugOption p.humidity_percentage ++ "-" ++ cid
      let state_hash := compute_keccak256 (utf8Bytes state_data)
      match pinResult with
      | .error e =>
        ([.validatePass, .persistCall true, .computeHash ("state_hash"), .pinCall false],
         .error (fromAnyhow e))
      | .ok _ =>
        ([.validatePass, .persistCall true, .computeHash ("state_hash"), .pinCall true],
         .ok { warehouse_id := p.warehouse_id, state_hash := state_hash, ipfs_cid := cid,
               updated_at := metadata.updated_at })
  else ([.validateFail], .error (.validationError ("invalid input")))

/-- Embedding of logistics_milestone (handlers.rs:161-212). -/
def logistics_milestone (p : LogisticsMilestoneRequest) (now : String)
    (upload : Except String String) (pinResult : Except String Unit) :
    List Event × Except AppError LogisticsMilestoneResponse :=
  if validateLogistics p then
    let location_data := p.shipment_id ++ "-" ++ p.current_location ++ "-" ++
      p.gps_coordinates.latitude ++ "-" ++ p.gps_coordinates.longitude
    let location_hash := compute_keccak256 (utf8Bytes location_data)
    let metadata := mkLogisticsMetadata location_hash p now
    match upload with
    | .error e =>
      ([.validatePass, .computeHash ("location_hash"), .persistCall false], .error (fromAnyhow e))
    | .ok cid =>
      match pinResult with
      | .error e =>
        ([.validatePass, .computeHash ("location_hash"), .persistCall true, .pinCall false],
         .error (fromAnyhow e))
      | .ok _ =>
        ([.validatePass, .computeHash ("location_hash"), .persistCall true, .pinCall true],
         .ok { shipment_id := p.shipment_id, location_hash := location_hash, ipfs_cid := cid,
               recorded_at := metadata.recorded_at })
  else ([.validateFail], .error (.validationError ("invalid input")))

/-- Embedding of process_batch (handlers.rs:216-280); input, output and
transform hashes are all computed from payload fields before persisting. -/
def process_batch (p : ProcessBatchRequest) (now : String)
    (upload : Except String String) (pinResult : Except String Unit) :
    List Event × Except AppError ProcessBatchResponse :=
  if validateProcess p then
    let input_data := p.input_batch_id ++ "-" ++ p.processor_name ++ "-" ++ p.input_quantity_kg
    let input_batch_hash := compute_keccak256 (utf8Bytes input_data)
    let output_batch_hashes := p.output_batch_ids.map (fun id =>
      compute_keccak256 (utf8Bytes (id ++ "-" ++ p.output_quantity_kg)))
    let transform_data := processingTypeDebug p.processing_type ++ "-" ++
      p.yield_percentage ++ "-" ++ p.waste_percentage
    let transform_hash := compute_keccak256 (utf8Bytes transform_data)
    let metadata := mkProcessMetadata input_batch_hash transform_hash output_batch_hashes p now
    match upload with
    | .error e =>
      ([.validatePass, .computeHash ("input_batch_hash"), .computeHash ("output_batch_hashes"),
        .computeHash ("transform_hash"), .persistCall false], .error (fromAnyhow e))
    | .ok cid =>
      match pinResult with
      | .error e =>
        ([.validatePass, .computeHash ("input_batch_hash"), .computeHash ("output_batch_hashes"),
          .computeHash ("transform_hash"), .persistCall true, .pinCall false],
         .error (fromAnyhow e))
      | .ok _ =>
        ([.validatePass, .computeHash ("input_batch_hash"), .computeHash ("output_batch_hashes"),
          .computeHash ("transform_hash"), .persistCall true, .pinCall true],
         .ok { input_batch_hash := input_batch_hash, transform_hash := transform_hash,
               output_batch_hashes := output_batch_hashes, ipfs_cid := cid,
               processed_at := metadata.processed_at })
  else ([.validateFail], .error (.validationError ("invalid input")))

/-- Embedding of create_sku (handlers.rs:284-333); the merkle leaves are the
supplied proof list, or the singleton SKU id when none is supplied.  The
source indexes the final merkle level directly; the unreachable empty case of
the Option result is collapsed with an empty-string default. -/
def create_sku (p : CreateSkuRequest) (now : String)
    (upload : Except String String) (pinResult : Except String Unit) :
    List Event × Except AppError CreateSkuResponse :=
  if validateSku p then
    let batch_data := p.parent_batch_id ++ "-" ++ p.product_name
    let parent_batch_hash := compute_keccak256 (utf8Bytes batch_data)
    let merkle_leaves := match p.merkle_proof with
      | some proof => proof
      | none => [p.sku_id]
    let merkle_root := (compute_merkle_root merkle_leaves).getD ""
    let metadata := mkSkuMetadata parent_batch_hash merkle_root p now
    match upload with
    | .error e =>
      ([.validatePass, .computeHash ("parent_batch_hash"), .computeHash ("merkle_root"),
        .persistCall false], .error (fromAnyhow e))
    | .ok cid =>
      match pinResult with
      | .error e =>
        ([.validatePass, .computeHash ("parent_batch_hash"), .computeHash ("merkle_root"),
          .persistCall true, .pinCall false], .error (fromAnyhow e))
      | .ok _ =>
        ([.validatePass, .computeHash ("parent_batch_hash"), .computeHash ("merkle_root"),
          .persistCall true, .pinCall true],
         .ok { sku_id := metadata.sku_id, parent_batch_hash := parent_batch_hash,
               merkle_root := merkle_root, ipfs_cid := cid,
               packaged_at := metadata.packaged_at })
  else ([.validateFail], .error (.validationError ("invalid input")))

/-- Embedding of ai_score (handlers.rs:337-391).  The nonce is the generated
one-time secret; batch, reveal and commit hashes are computed from the
payload and nonce before the persist call, all with compute_keccak256. -/
def ai_score (p : AiScoreRequest) (now nonce : String)
    (upload : Except String String) (pinResult : Except String Unit) :
    List Event × Except AppError AiScoreResponse :=
  if validateAiScore p then
    let batch_data := p.batch_id ++ "-" ++ p.model_name
    let batch_hash := compute_keccak256 (utf8Bytes batch_data)
    let reveal_data := canonicalAiScore p
    let reveal_hash := compute_keccak256 (utf8Bytes reveal_data)
    let commit_data := reveal_hash ++ nonce
    let commit_hash := compute_keccak256 (utf8Bytes commit_data)
    let metadata := mkAiScoreMetadata batch_hash commit_hash reveal_hash nonce p now
    match upload with
    | .error e =>
      ([.validatePass, .computeHash ("batch_hash"), .computeHash ("reveal_hash"),
        .computeHash ("commit_hash"), .persistCall false], .error (fromAnyhow e))
    | .ok cid =>
      match pinResult with
      | .error e =>
        ([.validatePass, .computeHash ("batch_hash"), .computeHash ("reveal_hash"),
          .computeHash ("commit_hash"), .persistCall true, .pinCall false],
         .error (fromAnyhow e))
      | .ok _ =>
        ([.validatePass, .computeHash ("batch_hash"), .computeHash ("reveal_hash"),
          .computeHash ("commit_hash"), .persistCall true, .pinCall true],
         .ok { batch_hash := batch_hash, commit_hash := commit_hash, reveal_hash := reveal_hash,
               ipfs_cid := cid, scored_at := metadata.scored_at })
  else ([.validateFail], .error (.validationError ("invalid input")))

-- ======================== commit-reveal ========================

/-- Commit-reveal pair as stored in the AI score envelope (spec section 3). -/
structure CommitRevealPair where
  nonce : String
  reveal_hash : String
  commit_hash : String
deriving DecidableEq

/-- The pair produced by the commit path of ai_score (handlers.rs:352-362). -/
def commitPair (p : AiScoreRequest) (nonce : String) : CommitRevealPair :=
  let reveal_hash := compute_keccak256 (utf8Bytes (canonicalAiScore p))
  { nonce := nonce, reveal_hash := reveal_hash,
    commit_hash := compute_keccak256 (utf8Bytes (reveal_hash ++ nonce)) }

/-- Modelled from the spec: verify(pair, payload) is described in section 4.3
of the spec but not implemented under src/.  It recomputes the reveal hash
from the payload and the commit hash from the recomputed reveal hash and the
stored nonce, and returns true iff both match the stored pair exactly.  The
digest family follows the commit path of the code (compute_keccak256). -/
def verify (pair : CommitRevealPair) (p : AiScoreRequest) : Bool :=
  let reveal_hash := compute_keccak256 (utf8Bytes (canonicalAiScore p))
  let commit_hash := compute_keccak256 (utf8Bytes (reveal_hash ++ pair.nonce))
  reveal_hash == pair.reveal_hash && commit_hash == pair.commit_hash

-- ======================== result projections ========================

/-- The state hash carried by a warehouse result, when it is a receipt. -/
def responseStateHash : Except AppError WarehouseUpdateResponse → Option String
  | .ok r => some r.state_hash
  | .error _ => none

/-- The reveal hash carried by an AI score result, when it is a receipt. -/
def responseRevealHash : Except AppError AiScoreResponse → Option String
  | .ok r => some r.reveal_hash
  | .error _ => none

/-- The commit hash carried by an AI score result, when it is a receipt. -/
def responseCommitHash : Except AppError AiScoreResponse → Option String
  | .ok r => some r.commit_hash
  | .error _ => none

-- ======================== concrete fixtures ========================

/-- A valid registration payload used as a concrete test input. -/
def p0reg : FarmerRegistrationRequest :=
  { farmer_name := "A", crop_type := "rice", land_area_hectares := "1.5",
    location := "L", gps_coordinates := none, kyc_document_url := none,
    land_ownership_docs := [], satellite_imagery_url := none,
    soil_test_report := none, phone_number := none, email := none }

/-- A valid purchase payload used as a concrete test input. -/
def p0fpo : FpoPurchaseRequest :=
  { farmer_did := "did:farmer:1", fpo_name := "F", batch_id := "B1",
    quantity_kg := "10.0", price_per_kg := "2.0", quality_grade := "A",
    quality_report_url := none, weight_slip_url := none, photos := [],
    moisture_content := none, impurity_percentage := none, payment_reference := none }

/-- A valid warehouse payload used as a concrete test input. -/
def p0wh : WarehouseUpdateRequest :=
  { warehouse_id := "W1", batch_id := "B1", storage_location := "S",
    temperature_celsius := some ("25.5"), humidity_percentage := none,
    co2_level_ppm := none, iot_logs_url := none, inspection_reports := [],
    pest_inspection := none, quality_degradation := none }

/-- A valid logistics payload used as a concrete test input. -/
def p0log : LogisticsMilestoneRequest :=
  { shipment_id := "S1", current_location := "C",
    gps_coordinates := { latitude := "1.0", longitude := "2.0", altitude := none },
    milestone_type := .inTransit, gps_history_url := none, carrier_name := "K",
    vehicle_id := "V", driver_name := none, temperature_log := none,
    shock_events := [], estimated_arrival := none, is_delivered := false }

/-- A valid process payload used as a concrete test input. -/
def p0proc : ProcessBatchRequest :=
  { input_batch_id := "B1", processor_name := "P", processing_type := .milling,
    input_quantity_kg := "10.0", output_quantity_kg := "8.0",
    yield_percentage := "80.0", waste_percentage := "20.0", lab_results_url := [],
    certifications := [], output_batch_ids := ["O1"], processing_parameters := none }

/-- A valid SKU payload used as a concrete test input. -/
def p0sku : CreateSkuRequest :=
  { sku_id := "SKU1", parent_batch_id := "B1", product_name := "Rice",
    brand := "Br", unit_weight_grams := "500.0", units_packaged := 10,
    package_type := "bag", barcode := none, qr_code := none,
    nutritional_info_url := none, regulatory_certifications := [],
    label_images := [], expiry_date := none, best_before_date := none,
    merkle_proof := none }

/-- A valid AI score payload used as a concrete test input. -/
def p0ai : AiScoreRequest :=
  { batch_id := "B1", quality_score := "90.0", sustainability_score := "80.0",
    traceability_score := "70.0", model_name := "m", model_version := "1",
    features := "null", predictions := "null", confidence := "0.9",
    model_artifacts_url := none, training_data_hash := none }

/-- The AI score payload p0ai with one field mutated. -/
def p1ai : AiScoreRequest :=
  { p0ai with batch_id := "B2" }

-- ======================== supporting lemmas ========================

theorem mrStep_length (l : List String) : (mrStep l).length = (l.length + 1) / 2 := by
  match l with
  | [] => rfl
  | [a] => simp [mrStep]
  | a :: b :: rest =>
    have ih := mrStep_length rest
    simp [mrStep, ih]
    omega

theorem mrStep_ne_nil (l : List String) (h : l ≠ []) : mrStep l ≠ [] := by
  match l with
  | [] => exact absurd rfl h
  | [a] => simp [mrStep]
  | a :: b :: rest => simp [mrStep]

theorem mrLoopAux_congr :
    ∀ (f1 f2 : Nat) (l : List String), l.length ≤ f1 + 1 → l.length ≤ f2 + 1 →
      mrLoopAux f1 l = mrLoopAux f2 l := by
  intro f1
  induction f1 with
  | zero =>
    intro f2 l h1 h2
    have hguard : ¬ 1 < l.length := by omega
    cases f2 with
    | zero => rfl
    | succ g => simp [mrLoopAux, hguard]
  | succ f ih =>
    intro f2 l h1 h2
    by_cases hguard : 1 < l.length
    · cases f2 with
      | zero => omega
      | succ g =>
        simp only [mrLoopAux, if_pos hguard]
        have hstep := mrStep_length l
        exact ih g (mrStep l) (by omega) (by omega)
    · cases f2 with
      | zero => simp [mrLoopAux, hguard]
      | succ g => simp [mrLoopAux, hguard]

/-- The fuel-indexed loop satisfies the genuine while-loop unfolding. -/
theorem mrLoop_unfold (l : List String) :
    mrLoop l = if 1 < l.length then mrLoop (mrStep l) else l := by
  by_cases hguard : 1 < l.length
  · rw [if_pos hguard]
    show mrLoopAux l.length l = mrLoop (mrStep l)
    cases hn : l.length with
    | zero => omega
    | succ n =>
      simp only [mrLoopAux, hn]
      rw [if_pos (by omega)]
      have hstep := mrStep_length l
      exact mrLoopAux_congr n (mrStep l).length (mrStep l) (by omega) (by omega)
  · rw [if_neg hguard]
    show mrLoopAux l.length l = l
    cases hn : l.length with
    | zero => rfl
    | succ n => simp only [mrLoopAux]; rw [if_neg (by omega)]

theorem mrLoopAux_ne_nil :
    ∀ (fuel : Nat) (l : List String), l ≠ [] → mrLoopAux fuel l ≠ [] := by
  intro fuel
  induction fuel with
  | zero => intro l h; exact h
  | succ f ih =>
    intro l h
    by_cases hguard : 1 < l.length
    · simp only [mrLoopAux, if_pos hguard]
      exact ih (mrStep l) (mrStep_ne_nil l h)
    · simp only [mrLoopAux, if_neg hguard]
      exact h

-- ======================== claim theorems ========================

/-- C2: the merkle root is computed by pairwise left-to-right combination of
adjacent leaves level by level, duplicating an odd trailing element, each
combination hashing the concatenated digest strings with the general digest;
root of the empty list is the sentinel digest of the string empty, a
singleton is returned verbatim, and the two- and three-leaf roots follow the
stated formulas. -/
theorem claim2_merkle_root_spec :
    compute_merkle_root [] = some (compute_sha256 (utf8Bytes ("empty")))
    ∧ (∀ x : String, compute_merkle_root [x] = some x)
    ∧ (∀ a b : String,
        compute_merkle_root [a, b] = some (compute_sha256 (utf8Bytes (a ++ b))))
    ∧ (∀ a b c : String,
        compute_merkle_root [a, b, c] = some (compute_sha256 (utf8Bytes
          (compute_sha256 (utf8Bytes (a ++ b)) ++ compute_sha256 (utf8Bytes (c ++ c))))))
    ∧ (∀ l : List String, 2 ≤ l.length →
        compute_merkle_root l = compute_merkle_root (mrStep l)) := by
  refine ⟨rfl, fun x => rfl, fun a b => rfl, fun a b c => rfl, fun l hl => ?_⟩
  have hne : l ≠ [] := by
    cases l with
    | nil => simp at hl
    | cons a t => simp
  have hie : l.isEmpty = false := by
    cases l with
    | nil => simp at hl
    | cons a t => rfl
  have h1 : (l.length == 1) = false := by
    simp
    omega
  have hsne : mrStep l ≠ [] := mrStep_ne_nil l hne
  have hsie : (mrStep l).isEmpty = false := by
    cases hs : mrStep l with
    | nil => exact absurd hs hsne
    | cons a t => rfl
  have hguard : 1 < l.length := by omega
  simp only [compute_merkle_root, hie, h1, hsie, Bool.false_eq_true, if_false]
  rw [mrLoop_unfold l, if_pos hguard]
  by_cases hs1 : (mrStep l).length == 1
  · simp only [hs1, if_true]
    rw [mrLoop_unfold (mrStep l), if_neg (by simp at hs1; omega)]
  · simp only [hs1, Bool.false_eq_true, if_false]

/-- Witness for C2 at a concrete four-leaf input. -/
theorem claim2_witness :
    2 ≤ (["a", "b", "c", "d"] : List String).length
    ∧ compute_merkle_root ["a", "b", "c", "d"] =
        compute_merkle_root (mrStep ["a", "b", "c", "d"]) :=
  ⟨by decide, claim2_merkle_root_spec.2.2.2.2 (["a", "b", "c", "d"]) (by decide)⟩

/-- C5 (code evaluation): the envelope value handed to the storage persist
call carries an empty content address (and an empty derived hash), and the
handler never writes to the envelope afterwards, so the durably stored
envelope never carries its own content address. -/
theorem claim5_stored_envelope_empty_cid :
    (∀ (p : WarehouseUpdateRequest) (now : String),
      (mkWarehouseMetadata p now).ipfs_cid = "" ∧ (mkWarehouseMetadata p now).state_hash = "")
    ∧ (∀ (q : FarmerRegistrationRequest) (now did : String),
      (mkFarmerMetadata q now did).ipfs_cid = ""
      ∧ (mkFarmerMetadata q now did).crop_id_hash = "") :=
  ⟨fun _ _ => ⟨rfl, rfl⟩, fun _ _ _ => ⟨rfl, rfl⟩⟩

/-- C9: both digest functions are pure functions of the input bytes; two
calls with identical input bytes yield the identical digest string. -/
theorem claim9_hash_determinism :
    ∀ b1 b2 : List Nat, b1 = b2 →
      compute_keccak256 b1 = compute_keccak256 b2
      ∧ compute_sha256 b1 = compute_sha256 b2 := by
  intro b1 b2 h
  subst h
  exact ⟨rfl, rfl⟩

/-- Witness for C9 at a concrete byte string. -/
theorem claim9_witness :
    ([104, 105] : List Nat) = [104, 105]
    ∧ compute_keccak256 [104, 105] = compute_keccak256 [104, 105]
    ∧ compute_sha256 [104, 105] = compute_sha256 [104, 105] :=
  ⟨rfl, claim9_hash_determinism [104, 105] [104, 105] rfl⟩

/-- C10: compute_merkle_root is total; on every finite input list the level
reduction reaches a result and the final head access is in bounds, so the
function always returns a digest (the Option result is never none). -/
theorem claim10_merkle_total :
    ∀ l : List String, (compute_merkle_root l).isSome = true := by
  intro l
  match l with
  | [] => rfl
  | [x] => rfl
  | a :: b :: rest =>
    have hne : mrLoop (a :: b :: rest) ≠ [] :=
      mrLoopAux_ne_nil (a :: b :: rest).length (a :: b :: rest) (by simp)
    have h1 : ((a :: b :: rest).length == 1) = false := by simp
    simp only [compute_merkle_root, List.isEmpty_cons, h1, Bool.false_eq_true, if_false]
    cases hml : mrLoop (a :: b :: rest) with
    | nil => exact absurd hml hne
    | cons h t => rfl

/-- C1: for every stage invocation a receipt is returned only when both the
persist call and the pin call succeeded, and when the persist call fails the
result is an error and no digest depending on a content address is computed
(the warehouse state hash is the only such digest). -/
theorem claim1_no_partial_receipt :
    (∀ (p : FarmerRegistrationRequest) (now did : String) (u : Except String String)
        (pr : Except String Unit),
      (register_farmer p now did u pr).2.isOk = true → u.isOk = true ∧ pr.isOk = true)
    ∧ (∀ (p : FpoPurchaseRequest) (now : String) (u : Except String String)
        (pr : Except String Unit),
      (fpo_purchase p now u pr).2.isOk = true → u.isOk = true ∧ pr.isOk = true)
    ∧ (∀ (p : WarehouseUpdateRequest) (now : String) (u : Except String String)
        (pr : Except String Unit),
      (warehouse_update p now u pr).2.isOk = true → u.isOk = true ∧ pr.isOk = true)
    ∧ (∀ (p : LogisticsMilestoneRequest) (now : String) (u : Except String String)
        (pr : Except String Unit),
      (logistics_milestone p now u pr).2.isOk = true → u.isOk = true ∧ pr.isOk = true)
    ∧ (∀ (p : ProcessBatchRequest) (now : String) (u : Except String String)
        (pr : Except String Unit),
      (process_batch p now u pr).2.isOk = true → u.isOk = true ∧ pr.isOk = true)
    ∧ (∀ (p : CreateSkuRequest) (now : String) (u : Except String String)
        (pr : Except String Unit),
      (create_sku p now u pr).2.isOk = true → u.isOk = true ∧ pr.isOk = true)
    ∧ (∀ (p : AiScoreRequest) (now nonce : String) (u : Except String String)
        (pr : Except String Unit),
      (ai_score p now nonce u pr).2.isOk = true → u.isOk = true ∧ pr.isOk = true)
    ∧ (∀ (p : FarmerRegistrationRequest) (now did e : String) (pr : Except String Unit),
      (register_farmer p now did (Except.error e) pr).2.isOk = false)
    ∧ (∀ (p : FpoPurchaseRequest) (now e : String) (pr : Except String Unit),
      (fpo_purchase p now (Except.error e) pr).2.isOk = false)
    ∧ (∀ (p : WarehouseUpdateRequest) (now e : String) (pr : Except String Unit),
      (warehouse_update p now (Except.error e) pr).2.isOk = false)
    ∧ (∀ (p : LogisticsMilestoneRequest) (now e : String) (pr : Except String Unit),
      (logistics_milestone p now (Except.error e) pr).2.isOk = false)
    ∧ (∀ (p : ProcessBatchRequest) (now e : String) (pr : Except String Unit),
      (process_batch p now (Except.error e) pr).2.isOk = false)
    ∧ (∀ (p : CreateSkuRequest) (now e : String) (pr : Except String Unit),
      (create_sku p now (Except.error e) pr).2.isOk = false)
    ∧ (∀ (p : AiScoreRequest) (now nonce e : String) (pr : Except String Unit),
      (ai_score p now nonce (Except.error e) pr).2.isOk = false)
    ∧ (∀ (p : WarehouseUpdateRequest) (now e : String) (pr : Except String Unit),
      Event.computeHash ("state_hash") ∉ (warehouse_update p now (Except.error e) pr).1) := by
  refine ⟨?_, ?_, ?_, ?_, ?_, ?_, ?_, ?_, ?_, ?_, ?_, ?_, ?_, ?_, ?_⟩
  · intro p now did u pr
    cases hv : validateFarmer p <;> cases u <;> cases pr <;>
      simp [register_farmer, hv, Except.isOk, Except.toBool]
  · intro p now u pr
    cases hv : validateFpo p <;> cases u <;> cases pr <;>
      simp [fpo_purchase, hv, Except.isOk, Except.toBool]
  · intro p now u pr
    cases hv : validateWarehouse p <;> cases u <;> cases pr <;>
      simp [warehouse_update, hv, Except.isOk, Except.toBool]
  · intro p now u pr
    cases hv : validateLogistics p <;> cases u <;> cases pr <;>
      simp [logistics_milestone, hv, Except.isOk, Except.toBool]
  · intro p now u pr
    cases hv : validateProcess p <;> cases u <;> cases pr <;>
      simp [process_batch, hv, Except.isOk, Except.toBool]
  · intro p now u pr
    cases hv : validateSku p <;> cases u <;> cases pr <;>
      simp [create_sku, hv, Except.isOk, Except.toBool]
  · intro p now nonce u pr
    cases hv : validateAiScore p <;> cases u <;> cases pr <;>
      simp [ai_score, hv, Except.isOk, Except.toBool]
  · intro p now did e pr
    cases hv : validateFarmer p <;> simp [register_farmer, hv, Except.isOk, Except.toBool]
  · intro p now e pr
    cases hv : validateFpo p <;> simp [fpo_purchase, hv, Except.isOk, Except.toBool]
  · intro p now e pr
    cases hv : validateWarehouse p <;> simp [warehouse_update, hv, Except.isOk, Except.toBool]
  · intro p now e pr
    cases hv : validateLogistics p <;> simp [logistics_milestone, hv, Except.isOk, Except.toBool]
  · intro p now e pr
    cases hv : validateProcess p <;> simp [process_batch, hv, Except.isOk, Except.toBool]
  · intro p now e pr
    cases hv : validateSku p <;> simp [create_sku, hv, Except.isOk, Except.toBool]
  · intro p now nonce e pr
    cases hv : validateAiScore p <;> simp [ai_score, hv, Except.isOk, Except.toBool]
  · intro p now e pr
    cases hv : validateWarehouse p <;> simp [warehouse_update, hv]

/-- Witness for C1: a concrete successful registration, whose receipt implies
both storage calls succeeded. -/
theorem claim1_witness :
    (register_farmer p0reg ("t0") ("d0") (Except.ok ("QmA")) (Except.ok ())).2.isOk = true
    ∧ ((Except.ok ("QmA") : Except String String).isOk = true
       ∧ (Except.ok () : Except String Unit).isOk = true) :=
  ⟨by decide,
   claim1_no_partial_receipt.1 p0reg ("t0") ("d0") (Except.ok ("QmA")) (Except.ok ())
     (by decide)⟩

/-- C6: on a successful warehouse update the state hash is the Solidity
digest of warehouse id, batch id, temperature, humidity and the obtained
content address joined with the fixed dash delimiter, it is computed only
after the persist call, and it is never computed when the persist call
fails. -/
theorem claim6_warehouse_state_hash :
    ∀ (p : WarehouseUpdateRequest) (now cid : String),
      validateWarehouse p = true →
      responseStateHash (warehouse_update p now (Except.ok cid) (Except.ok ())).2 =
        some (compute_keccak256 (utf8Bytes (p.warehouse_id ++ "-" ++ p.batch_id ++ "-" ++
          debugOption p.temperature_celsius ++ "-" ++
          debugOption p.humidity_percentage ++ "-" ++ cid)))
      ∧ hashPrecedesPersist ("state_hash")
          (warehouse_update p now (Except.ok cid) (Except.ok ())).1 = false
      ∧ hashAfterPersist ("state_hash")
          (warehouse_update p now (Except.ok cid) (Except.ok ())).1 = true
      ∧ (∀ (e : String) (pr : Except String Unit),
          Event.computeHash ("state_hash") ∉ (warehouse_update p now (Except.error e) pr).1) := by
  intro p now cid hv
  refine ⟨?_, ?_, ?_, ?_⟩
  · simp [warehouse_update, hv, responseStateHash]
  · simp [warehouse_update, hv, hashPrecedesPersist, beforePersist, isPersistEvent]
    decide
  · simp [warehouse_update, hv, hashAfterPersist, afterPersist, isPersistEvent]
    decide
  · intro e pr
    simp [warehouse_update, hv]

/-- Witness for C6 at a concrete warehouse update. -/
theorem claim6_witness :
    validateWarehouse p0wh = true
    ∧ (responseStateHash (warehouse_update p0wh ("t0") (Except.ok ("QmA")) (Except.ok ())).2 =
        some (compute_keccak256 (utf8Bytes (p0wh.warehouse_id ++ "-" ++ p0wh.batch_id ++ "-" ++
          debugOption p0wh.temperature_celsius ++ "-" ++
          debugOption p0wh.humidity_percentage ++ "-" ++ "QmA")))
      ∧ hashPrecedesPersist ("state_hash")
          (warehouse_update p0wh ("t0") (Except.ok ("QmA")) (Except.ok ())).1 = false
      ∧ hashAfterPersist ("state_hash")
          (warehouse_update p0wh ("t0") (Except.ok ("QmA")) (Except.ok ())).1 = true
      ∧ (∀ (e : String) (pr : Except String Unit),
          Event.computeHash ("state_hash") ∉
            (warehouse_update p0wh ("t0") (Except.error e) pr).1)) :=
  ⟨by decide, claim6_warehouse_state_hash p0wh ("t0") ("QmA") (by decide)⟩

/-- C7 counterexample: in the concrete registration run the crop id digest is
not computed before the persist call; it appears only after it. -/
theorem claim7_counterexample :
    hashPrecedesPersist ("crop_id_hash")
      (register_farmer p0reg ("t0") ("d0") (Except.ok ("QmA")) (Except.ok ())).1 = false
    ∧ (register_farmer p0reg ("t0") ("d0") (Except.ok ("QmA")) (Except.ok ())).1.contains
        (Event.computeHash ("crop_id_hash")) = true
    ∧ hashAfterPersist ("crop_id_hash")
      (register_farmer p0reg ("t0") ("d0") (Except.ok ("QmA")) (Except.ok ())).1 = true := by
  exact ⟨by decide, by decide, by decide⟩

/-- C7 as amended: purchase, logistics, processing, packaging and the AI
score commit compute their primary digests before the persist call;
registration computes its digest only after the persist call, although its
inputs are known from the payload alone. -/
theorem claim7_amended_prehash :
    (∀ (p : FpoPurchaseRequest) (now : String) (u : Except String String)
        (pr : Except String Unit), validateFpo p = true →
      hashPrecedesPersist ("batch_hash") (fpo_purchase p now u pr).1 = true)
    ∧ (∀ (p : LogisticsMilestoneRequest) (now : String) (u : Except String String)
        (pr : Except String Unit), validateLogistics p = true →
      hashPrecedesPersist ("location_hash") (logistics_milestone p now u pr).1 = true)
    ∧ (∀ (p : ProcessBatchRequest) (now : String) (u : Except String String)
        (pr : Except String Unit), validateProcess p = true →
      hashPrecedesPersist ("input_batch_hash") (process_batch p now u pr).1 = true
      ∧ hashPrecedesPersist ("output_batch_hashes") (process_batch p now u pr).1 = true
      ∧ hashPrecedesPersist ("transform_hash") (process_batch p now u pr).1 = true)
    ∧ (∀ (p : CreateSkuRequest) (now : String) (u : Except String String)
        (pr : Except String Unit), validateSku p = true →
      hashPrecedesPersist ("parent_batch_hash") (create_sku p now u pr).1 = true
      ∧ hashPrecedesPersist ("merkle_root") (create_sku p now u pr).1 = true)
    ∧ (∀ (p : AiScoreRequest) (now nonce : String) (u : Except String String)
        (pr : Except String Unit), validateAiScore p = true →
      hashPrecedesPersist ("batch_hash") (ai_score p now nonce u pr).1 = true
      ∧ hashPrecedesPersist ("reveal_hash") (ai_score p now nonce u pr).1 = true
      ∧ hashPrecedesPersist ("commit_hash") (ai_score p now nonce u pr).1 = true)
    ∧ (∀ (p : FarmerRegistrationRequest) (now did : String) (u : Except String String)
        (pr : Except String Unit),
      hashPrecedesPersist ("crop_id_hash") (register_farmer p now did u pr).1 = false)
    ∧ (∀ (p : FarmerRegistrationRequest) (now did cid : String) (pr : Except String Unit),
        validateFarmer p = true →
      hashAfterPersist ("crop_id_hash")
        (register_farmer p now did (Except.ok cid) pr).1 = true) := by
  refine ⟨?_, ?_, ?_, ?_, ?_, ?_, ?_⟩
  · intro p now u pr hv
    cases u <;> cases pr <;>
      simp [fpo_purchase, hv, hashPrecedesPersist, beforePersist, isPersistEvent] <;> decide
  · intro p now u pr hv
    cases u <;> cases pr <;>
      simp [logistics_milestone, hv, hashPrecedesPersist, beforePersist, isPersistEvent] <;> decide
  · intro p now u pr hv
    cases u <;> cases pr <;>
      simp [process_batch, hv, hashPrecedesPersist, beforePersist, isPersistEvent] <;> decide
  · intro p now u pr hv
    cases u <;> cases pr <;>
      simp [create_sku, hv, hashPrecedesPersist, beforePersist, isPersistEvent] <;> decide
  · intro p now nonce u pr hv
    cases u <;> cases pr <;>
      simp [ai_score, hv, hashPrecedesPersist, beforePersist, isPersistEvent] <;> decide
  · intro p now did u pr
    cases hv : validateFarmer p <;> cases u <;> cases pr <;>
      simp [register_farmer, hv, hashPrecedesPersist, beforePersist, isPersistEvent] <;> decide
  · intro p now did cid pr hv
    cases pr <;>
      simp [register_farmer, hv, hashAfterPersist, afterPersist, isPersistEvent] <;> decide

/-- Witness for C7 at a concrete purchase. -/
theorem claim7_witness :
    validateFpo p0fpo = true
    ∧ hashPrecedesPersist ("batch_hash")
        (fpo_purchase p0fpo ("t0") (Except.ok ("QmA")) (Except.ok ())).1 = true :=
  ⟨by decide,
   claim7_amended_prehash.1 p0fpo ("t0") (Except.ok ("QmA")) (Except.ok ()) (by decide)⟩

/-- C8 counterexample: in a concrete warehouse run where persistence succeeds
and pin fails, the surfaced error is InternalError, the same class produced
by a persist failure, and the error type has no PinFailedError class. -/
theorem claim8_counterexample :
    (warehouse_update p0wh ("t0") (Except.ok ("QmA")) (Except.error ("boom"))).2 =
      Except.error (AppError.internalError ("boom"))
    ∧ (warehouse_update p0wh ("t0") (Except.error ("boom")) (Except.ok ())).2 =
      Except.error (AppError.internalError ("boom"))
    ∧ ¬ ("PinFailedError" ∈ appErrorVariants) := by
  exact ⟨rfl, rfl, by decide⟩

/-- C8 as amended: the error type defines neither PinFailedError nor
StorageUnavailableError; anyhow failures of the storage client map to
InternalError, so a pin failure and a persist failure surface as the same
error class and are not distinguishable by class. -/
theorem claim8_amended_error_classes :
    ¬ ("PinFailedError" ∈ appErrorVariants)
    ∧ ¬ ("StorageUnavailableError" ∈ appErrorVariants)
    ∧ (∀ e : String, fromAnyhow e = AppError.internalError e)
    ∧ (∀ (p : WarehouseUpdateRequest) (now e : String) (pr : Except String Unit),
        validateWarehouse p = true →
        (warehouse_update p now (Except.error e) pr).2 =
          Except.error (AppError.internalError e))
    ∧ (∀ (p : WarehouseUpdateRequest) (now cid e : String),
        validateWarehouse p = true →
        (warehouse_update p now (Except.ok cid) (Except.error e)).2 =
          Except.error (AppError.internalError e)) := by
  refine ⟨by decide, by decide, fun e => rfl, ?_, ?_⟩
  · intro p now e pr hv
    simp [warehouse_update, hv, fromAnyhow]
  · intro p now cid e hv
    simp [warehouse_update, hv, fromAnyhow]

/-- Witness for C8 at a concrete persist failure. -/
theorem claim8_witness :
    validateWarehouse p0wh = true
    ∧ (warehouse_update p0wh ("t1") (Except.error ("down")) (Except.ok ())).2 =
        Except.error (AppError.internalError ("down")) :=
  ⟨by decide,
   claim8_amended_error_classes.2.2.2.1 p0wh ("t1") ("down") (Except.ok ()) (by decide)⟩

/-- C3 counterexample: for a concrete valid AI score payload the reveal hash
returned by ai_score is the keccak256 digest of the canonical payload, which
differs from the SHA-256 digest of the same canonical payload claimed by the
specification. -/
theorem claim3_counterexample :
    responseRevealHash (ai_score p0ai ("t0") ("n0") (Except.ok ("QmA")) (Except.ok ())).2 =
      some (compute_keccak256 (utf8Bytes (canonicalAiScore p0ai)))
    ∧ compute_keccak256 (utf8Bytes (canonicalAiScore p0ai)) ≠
      compute_sha256 (utf8Bytes (canonicalAiScore p0ai)) := by
  exact ⟨rfl, by decide⟩

/-- C3 as amended: the reveal hash is the Solidity-compatible keccak256
digest of the canonical payload serialization and the commit hash is the
keccak256 digest of the reveal hash string concatenated with the nonce
string. -/
theorem claim3_amended_keccak_commit_reveal :
    ∀ (p : AiScoreRequest) (now nonce cid : String),
      validateAiScore p = true →
      responseRevealHash (ai_score p now nonce (Except.ok cid) (Except.ok ())).2 =
        some (compute_keccak256 (utf8Bytes (canonicalAiScore p)))
      ∧ responseCommitHash (ai_score p now nonce (Except.ok cid) (Except.ok ())).2 =
        some (compute_keccak256 (utf8Bytes
          (compute_keccak256 (utf8Bytes (canonicalAiScore p)) ++ nonce))) := by
  intro p now nonce cid hv
  constructor
  · simp [ai_score, hv, responseRevealHash]
  · simp [ai_score, hv, responseCommitHash]

/-- Witness for C3 as amended, at a concrete AI score request. -/
theorem claim3_witness :
    validateAiScore p0ai = true
    ∧ (responseRevealHash (ai_score p0ai ("t1") ("n1") (Except.ok ("QmB")) (Except.ok ())).2 =
        some (compute_keccak256 (utf8Bytes (canonicalAiScore p0ai)))
      ∧ responseCommitHash (ai_score p0ai ("t1") ("n1") (Except.ok ("QmB")) (Except.ok ())).2 =
        some (compute_keccak256 (utf8Bytes
          (compute_keccak256 (utf8Bytes (canonicalAiScore p0ai)) ++ "n1")))) :=
  ⟨by decide, claim3_amended_keccak_commit_reveal p0ai ("t1") ("n1") ("QmB") (by decide)⟩

/-- C4 counterexample: the AI score receipt returned to the caller has no
nonce field; the nonce lives only in the stored envelope. -/
theorem claim4_counterexample :
    ¬ ("nonce" ∈ aiScoreResponseFields) ∧ ("nonce" ∈ aiScoreMetadataFields) := by
  exact ⟨by decide, by decide⟩

/-- C4 as amended: the stored envelope (not the receipt) carries the nonce;
recomputing the commit hash from that nonce and the reveal hash, as verify
does, reproduces the stored commit hash, and verification of any payload
succeeds exactly when its recomputed reveal digest equals the committed
one. -/
theorem claim4_amended_verify :
    ∀ (p : AiScoreRequest) (nonce : String),
      verify (commitPair p nonce) p = true
      ∧ (∀ q : AiScoreRequest, verify (commitPair p nonce) q = true ↔
          compute_keccak256 (utf8Bytes (canonicalAiScore q)) =
            compute_keccak256 (utf8Bytes (canonicalAiScore p)))
      ∧ ¬ ("nonce" ∈ aiScoreResponseFields)
      ∧ ("nonce" ∈ aiScoreMetadataFields)
      ∧ (∀ (bh ch rh n : String) (q : AiScoreRequest) (now : String),
          (mkAiScoreMetadata bh ch rh n q now).nonce = n) := by
  intro p nonce
  refine ⟨?_, ?_, by decide, by decide, fun bh ch rh n q now => rfl⟩
  · simp [verify, commitPair]
  · intro q
    simp only [verify, commitPair, Bool.and_eq_true, beq_iff_eq]
    constructor
    · rintro ⟨h1, h2⟩
      exact h1
    · intro h
      exact ⟨h, by rw [h]⟩

/-- Witness for C4: the committed pair verifies against the original payload
and fails against the payload with one mutated field. -/
theorem claim4_witness :
    verify (commitPair p0ai ("n0")) p0ai = true
    ∧ verify (commitPair p0ai ("n0")) p1ai = false :=
  ⟨(claim4_amended_verify p0ai ("n0")).1, by decide⟩
